import Mathlib

set_option maxRecDepth 100000

/-!
Shallow embedding of the libclgeom host-side compute-dispatch layer
(src/errors.rs, src/compile.rs, src/context.rs, src/ffi.rs, src/mesh.rs).

The underlying OpenCL runtime is external to the repository: its observable
behaviour (platform lists, device lists, name queries, native build / queue /
read outcomes) is modelled as explicit inputs to the embedded functions, so
that every embedded function stays pure and executable.
-/

namespace Clgeom

/-! ## Error model (src/errors.rs) -/

/-- The `ClgeomError` from src/errors.rs: a message and an optional cause. -/
inductive ClgeomError where
  | mk (message : String) (cause : Option ClgeomError)

/-- The `ClgeomError::new`: message only, no cause. -/
def ClgeomError.new (message : String) : ClgeomError := .mk message none

/-- The `message` field of a `ClgeomError`. -/
def ClgeomError.message : ClgeomError → String
  | .mk m _ => m

/-- Model of an `ocl::Error` / `ocl::core::Error` as observed by
`error_info_impl!` in src/errors.rs: the optional API status (its `Display`
rendering), the optional cause's `Display` rendering, and the error's own
`Display` rendering (which for build failures carries the full native
compiler diagnostic text). -/
structure OclError where
  apiStatus : Option String
  causeMsg : Option String
  displayMsg : String
deriving DecidableEq, Repr

/-- The `to_clgeom_error` from the `error_info_impl!` macro in src/errors.rs. -/
def OclError.to_clgeom_error (e : OclError) (op : String) : ClgeomError :=
  let status_str := match e.apiStatus with
    | some s => s
    | none => "[NONE]"
  let cause_str := match e.causeMsg with
    | some c => "Caused by:\n" ++ c
    | none => ""
  ClgeomError.mk
    ("OpenCL error while " ++ op ++ ".\nOpenCL status: " ++ status_str ++
      "\nError message: " ++ cause_str ++ "\nCaused by: " ++ e.displayMsg ++ "\n")
    none

/-- The `rewrap_ocl_result` from src/errors.rs. -/
def rewrap_ocl_result {T : Type} (r : Except OclError T) (op : String) :
    Except ClgeomError T :=
  match r with
  | .ok v => .ok v
  | .error e => .error (e.to_clgeom_error op)

/-! ## Kernel source registry (src/compile.rs) -/

/-- Modelled from the spec: the template file `src/opencl/fn_inpl.c` is pulled
in with `include_str!` but is not present under src/; its exact expansion is
pinned by the unit test `get_add` in src/compile.rs, which this definition
reproduces (slots: kernel name, operator token, two operand type tokens). -/
def fn_inpl (name op T1 T2 : String) : String :=
  "__kernel void " ++ name ++ "(__global " ++ T1 ++ " *A, __global const " ++
    T2 ++ " *B) \x7b\n    int i = get_global_id(0);\n    A[i] " ++ op ++
    " B[i];\n\x7d"

/-- The `get_source!` macro from src/compile.rs: closed string dispatch over
kernel names, `Err("Unknown function: {name}")` for anything else. -/
def get_source (fn_name : String) : Except ClgeomError String :=
  match fn_name with
  | "add" => .ok (fn_inpl "add" "+=" "float4" "float4")
  | "sub" => .ok (fn_inpl "sub" "-=" "float4" "float4")
  | "mul" => .ok (fn_inpl "mul" "*=" "float4" "float4")
  | "div" => .ok (fn_inpl "div" "/=" "float4" "float4")
  | _ => .error (ClgeomError.new ("Unknown function: " ++ fn_name))

/-! ## Devices and platforms (model of the external ocl enumeration API) -/

/-- Model of an `ocl::Device`: the outcome of its `name()` query and whether
it carries the GPU capability bit used by `DEVICE_TYPE_GPU` filtering. -/
structure OclDevice where
  dname : Except OclError String
  isGpu : Bool

/-- Model of an `ocl::Platform`: the outcome of its `name()` query and the
outcome of `Device::list` on it (the platform's raw device list, or the
enumeration error the native API reports). -/
structure OclPlatform where
  pname : Except OclError String
  devListResult : Except OclError (List OclDevice)

/-- Model of `ocl::Device::list(platform, Some(DEVICE_TYPE_GPU))`: the native
API reports the platform's devices filtered to GPU-class ones, or an error. -/
def listGpuDevices (p : OclPlatform) : Except OclError (List OclDevice) :=
  match p.devListResult with
  | .ok ds => .ok (ds.filter (·.isGpu))
  | .error e => .error e

/-- Rust `Iterator::enumerate` starting at `i` (helper for the embedding of
`.iter().enumerate()` call sites). -/
def enumerateFrom (i : Nat) : List α → List (Nat × α)
  | [] => []
  | a :: rest => (i, a) :: enumerateFrom (i + 1) rest

/-- Rust `Iterator::enumerate`. -/
def enumerate (l : List α) : List (Nat × α) := enumerateFrom 0 l

/-- Rust `iter().map(f).collect::<Result<Vec<_>, _>>()`: first error wins. -/
def mapCollect (f : α → Except ClgeomError β) : List α → Except ClgeomError (List β)
  | [] => .ok []
  | a :: rest => do
    let b ← f a
    let bs ← mapCollect f rest
    .ok (b :: bs)

/-! ## Context manager (src/context.rs) -/

/-- The `DeviceInfo` from src/context.rs. -/
structure DeviceInfo where
  device_id : Nat
  device_name : String
  platform_id : Nat
  platform_name : String

/-- The `PlatformDevices` from src/context.rs: a platform and its device vector. -/
structure PlatformDevices where
  devices : List OclDevice
  platform : OclPlatform

/-- Model of a native `ocl::Context`: the platform the builder was given (if
any) and the devices it was built with. -/
structure Context where
  platform : Option OclPlatform
  devices : List OclDevice

/-- Model of a native `ocl::Queue`: the context and single device it is bound
to. -/
structure Queue where
  context : Context
  device : OclDevice

/-- The `ComputeContext` from src/context.rs: one context plus one queue. -/
structure ComputeContext where
  context : Context
  queue : Queue

/-- The `ContextManager` from src/context.rs: the enumeration snapshot. -/
structure ContextManager where
  ocl_platforms : List PlatformDevices

/-- The `unwrap_devices` from src/context.rs. -/
def unwrap_devices (platform : OclPlatform) : Except ClgeomError PlatformDevices := do
  let devices ← rewrap_ocl_result (listGpuDevices platform) "listing devices"
  .ok ⟨devices, platform⟩

/-- The `ContextManager::new` from src/context.rs, with the native
`Platform::list()` result supplied as the `raw_platforms` argument. -/
def ContextManager.new (raw_platforms : List OclPlatform) :
    Except ClgeomError ContextManager := do
  let ocl_platforms ← mapCollect unwrap_devices raw_platforms
  .ok ⟨ocl_platforms⟩

/-- The `create_device_info` from src/context.rs. -/
def create_device_info (platform_id : Nat) (platform_name : String)
    (device_id : Nat) (device : OclDevice) : Except ClgeomError DeviceInfo := do
  let device_name ← rewrap_ocl_result device.dname "getting device name"
  .ok ⟨device_id, device_name, platform_id, platform_name⟩

/-- The `create_device_infos` from src/context.rs. -/
def create_device_infos (platform_id : Nat) (platform_devices : PlatformDevices) :
    Except ClgeomError (List DeviceInfo) := do
  let name ← rewrap_ocl_result platform_devices.platform.pname
    "creating DeviceInfo instances"
  mapCollect (fun d => create_device_info platform_id name d.1 d.2)
    (enumerate platform_devices.devices)

/-- The `ContextManager::list_devices` from src/context.rs. -/
def ContextManager.list_devices (mgr : ContextManager) :
    Except ClgeomError (List DeviceInfo) := do
  let devices ← mapCollect (fun p => create_device_infos p.1 p.2)
    (enumerate mgr.ocl_platforms)
  .ok devices.flatten

/-- Rust `Option::ok_or_else` specialized to `ClgeomError` results. -/
def okOrElse (o : Option α) (e : Unit → ClgeomError) : Except ClgeomError α :=
  match o with
  | some a => .ok a
  | none => .error (e ())

/-- Outcomes of the native context-build and queue-creation calls made by
`ContextManager::create_context`. -/
structure NativeEnv where
  contextBuild : Except OclError Unit
  queueNew : Except OclError Unit

/-- The `ContextManager::create_context` from src/context.rs: bounds-checked
lookups of the platform and device, then one native context built on that
platform with that single device, then one native queue on that context and
device. -/
def ContextManager.create_context (mgr : ContextManager) (device : DeviceInfo)
    (env : NativeEnv) : Except ClgeomError ComputeContext := do
  let ocl_platform ← okOrElse mgr.ocl_platforms[device.platform_id]? (fun _ =>
    ClgeomError.new ("Error getting platform " ++ toString device.platform_id))
  let ocl_device ← okOrElse ocl_platform.devices[device.device_id]? (fun _ =>
    ClgeomError.new ("getting device " ++ toString device.device_id ++
      " for platform " ++ toString device.platform_id))
  let _ ← rewrap_ocl_result env.contextBuild "creating context"
  let context : Context := ⟨some ocl_platform.platform, [ocl_device]⟩
  let _ ← rewrap_ocl_result env.queueNew "creating command queue"
  let queue : Queue := ⟨context, ocl_device⟩
  .ok ⟨context, queue⟩

/-! ## Program builder (src/compile.rs) -/

/-- Model of a compiled `ocl::Program`: its source, the devices passed to the
builder, and the context it was built against. -/
structure Program where
  source : String
  devices : List OclDevice
  context : Context

/-- Outcomes of the native calls made by `get_program`. -/
structure CompileEnv where
  contextBuild : Except OclError Unit
  programBuild : Except OclError Unit

/-- The `get_program` from src/compile.rs: builds a fresh context with
`ContextBuilder::new().devices(target)` (no platform), resolves the source via
`get_source!`, then builds the program against that fresh context. -/
def get_program (function : String) (target : OclDevice) (env : CompileEnv) :
    Except ClgeomError Program := do
  let _ ← rewrap_ocl_result env.contextBuild "creating context"
  let context : Context := ⟨none, [target]⟩
  let src ← get_source function
  let _ ← rewrap_ocl_result env.programBuild "building OpenCL program"
  .ok ⟨src, [target], context⟩

/-! ## FFI boundary (src/ffi.rs) -/

/-- The `ClgeomDeviceInfo` from src/ffi.rs (C strings modelled as `String`). -/
structure ClgeomDeviceInfo where
  device_id : Nat
  device_name : String
  platform_id : Nat
  platform_name : String

/-- The `ClgeomContextManager` from src/ffi.rs: the device-info array, the boxed
manager pointer (none models the null pointer of the error path), and the
recorded device count. -/
structure ClgeomContextManager where
  devices : List ClgeomDeviceInfo
  manager : Option ContextManager
  n_devices : Nat

/-- The `ClgeomContext` from src/ffi.rs. The code boxes the *whole*
`Result<ComputeContext, ClgeomError>` returned by `create_context` behind the
opaque pointer, so the handle holds the result value itself. -/
structure ClgeomContext where
  context : Except ClgeomError ComputeContext

/-- The `string_to_c_char` from src/ffi.rs: `CString::new` fails on an interior
NUL byte. -/
def string_to_c_char (s : String) : Except ClgeomError String :=
  if s.data.contains (Char.ofNat 0) then
    .error (ClgeomError.mk ("Failed to convert &str " ++ s ++ " to *c_char") none)
  else
    .ok s

/-- The `create_c_device_info` from src/ffi.rs. -/
def create_c_device_info (device_info : DeviceInfo) :
    Except ClgeomError ClgeomDeviceInfo := do
  let device_name ← string_to_c_char device_info.device_name
  let platform_name ← string_to_c_char device_info.platform_name
  .ok ⟨device_info.device_id, device_name, device_info.platform_id, platform_name⟩

/-- The `create_c_context_manager` from src/ffi.rs, with the native platform list
supplied as the argument. -/
def create_c_context_manager (raw_platforms : List OclPlatform) :
    Except ClgeomError ClgeomContextManager := do
  let manager ← ContextManager.new raw_platforms
  let device_infos ← manager.list_devices
  let c_devices ← match mapCollect create_c_device_info device_infos with
    | .ok list => Except.ok list
    | .error e => Except.error (ClgeomError.mk "Failed to create device info" (some e))
  .ok ⟨c_devices, some manager, c_devices.length⟩

/-- The `clgeom_create_context_manager` from src/ffi.rs: returns the handle and
the status written to `error_code` (0 on success, 999 on failure). -/
def clgeom_create_context_manager (raw_platforms : List OclPlatform) :
    ClgeomContextManager × Nat :=
  match create_c_context_manager raw_platforms with
  | .ok m => (m, 0)
  | .error _ => (⟨[], none, 99999⟩, 999)

/-- The `clgeom_create_context` from src/ffi.rs: rebuilds a `DeviceInfo` with
empty names from the C device info, boxes the raw `create_context` result into
the returned handle, and writes 0 to `error_code` unconditionally. Returns the
handle and the status written. -/
def clgeom_create_context (mgr : ContextManager) (c_dev_info : ClgeomDeviceInfo)
    (env : NativeEnv) : ClgeomContext × Nat :=
  let dev_info : DeviceInfo :=
    ⟨c_dev_info.device_id, "", c_dev_info.platform_id, ""⟩
  (⟨mgr.create_context dev_info env⟩, 0)

/-! ## Triangle mesh (src/mesh.rs) -/

/-- Model of `ocl::prm::Float4`: four scalar components. No claim depends on
floating-point arithmetic; the components are only stored and rearranged. -/
structure Float4 where
  s0 : Float
  s1 : Float
  s2 : Float
  s3 : Float

/-- The `Float4::get` from the ocl crate: component access returning `None` out of
range. -/
def Float4.get (v : Float4) (j : Nat) : Option Float :=
  match j with
  | 0 => some v.s0
  | 1 => some v.s1
  | 2 => some v.s2
  | 3 => some v.s3
  | _ => none

/-- The per-component match inside `TriangleMesh::get_coords` (src/mesh.rs):
`Some(val) => *val, None => 0.0f32`. -/
def coord_or_zero (o : Option Float) : Float :=
  match o with
  | some val => val
  | none => 0.0

/-- The `TriangleMesh::get_coords` from src/mesh.rs: a 3-element array filled from
components 0..3, substituting `0.0` for a component the vector fails to
yield. -/
def get_coords (v : Float4) : List Float :=
  (List.range 3).map (fun coord => coord_or_zero (v.get coord))

/-- The `TriangleAccumulator` from src/mesh.rs. -/
structure TriangleAccumulator where
  result : List (List (List Float))
  next_pt_index : Nat
  tmp_triangle : List (List Float)

/-- The `TriangleAccumulator::new` from src/mesh.rs (the capacity hint taken from
the buffer length has no observable effect). -/
def TriangleAccumulator.new (_triangle_count : Nat) : TriangleAccumulator :=
  ⟨[], 0, List.replicate 3 (List.replicate 3 0.0)⟩

/-- The `TriangleAccumulator::add_point` from src/mesh.rs. -/
def TriangleAccumulator.add_point (acc : TriangleAccumulator) (pt : Float4) :
    TriangleAccumulator :=
  let tmp_triangle := acc.tmp_triangle.set acc.next_pt_index (get_coords pt)
  let next_pt_index := acc.next_pt_index + 1
  if next_pt_index == 3 then
    ⟨acc.result ++ [tmp_triangle], 0, tmp_triangle⟩
  else
    ⟨acc.result, next_pt_index, tmp_triangle⟩

/-- The `ComputeContext::read_buffer` from src/context.rs: a blocking native read
returning the buffer's contents, or the wrapped native error. The device is
not computing anything here, so the contents are the data the buffer holds. -/
def read_buffer (readResult : Except OclError Unit) (buffer : List Float4) :
    Except ClgeomError (List Float4) := do
  let _ ← rewrap_ocl_result readResult "reading result"
  .ok buffer

/-- The `TriangleMesh::triangles` from src/mesh.rs: read the backing buffer,
reject lengths that are not a multiple of 3, otherwise fold the points through
the accumulator. -/
def triangles (readResult : Except OclError Unit) (data : List Float4) :
    Except ClgeomError (List (List (List Float))) := do
  let buffer_content ← read_buffer readResult data
  if buffer_content.length % 3 ≠ 0 then
    .error (ClgeomError.new "Buffer length is not a multiple of 3.")
  else
    .ok ((buffer_content.foldl TriangleAccumulator.add_point
      (TriangleAccumulator.new buffer_content.length)).result)

/-! ## Helper notions and lemmas -/

/-- Substring containment: `t` occurs verbatim (contiguously) inside `s`. -/
def strContains (s t : String) : Prop := t.data <:+: s.data

instance (s t : String) : Decidable (strContains s t) :=
  inferInstanceAs (Decidable (t.data <:+: s.data))

theorem strContains_refl (t : String) : strContains t t := List.infix_refl _

theorem strContains_append_left (a : String) {s t : String} (h : strContains s t) :
    strContains (a ++ s) t := by
  unfold strContains at *
  rw [String.data_append]
  exact h.trans (List.suffix_append a.data s.data).isInfix

theorem strContains_append_right (b : String) {s t : String} (h : strContains s t) :
    strContains (s ++ b) t := by
  unfold strContains at *
  rw [String.data_append]
  exact h.trans (List.prefix_append s.data b.data).isInfix

theorem except_bind_ok {ε α β : Type} (a : α) (f : α → Except ε β) :
    (Except.ok a : Except ε α) >>= f = f a := rfl

theorem except_bind_error {ε α β : Type} (e : ε) (f : α → Except ε β) :
    (Except.error e : Except ε α) >>= f = Except.error e := rfl

theorem mapCollect_ok {α β : Type} (f : α → Except ClgeomError β) (g : α → β) :
    ∀ l : List α, (∀ a ∈ l, f a = .ok (g a)) → mapCollect f l = .ok (l.map g)
  | [], _ => rfl
  | a :: rest, h => by
    have ha := h a (List.mem_cons_self a rest)
    have hrest := mapCollect_ok f g rest (fun x hx => h x (List.mem_cons_of_mem a hx))
    simp only [mapCollect, ha, hrest, List.map_cons]
    rfl

theorem mapCollect_isError {α β : Type} (f : α → Except ClgeomError β) :
    ∀ (l : List α) (a : α), a ∈ l → ∀ e, f a = .error e →
      ∃ err, mapCollect f l = .error err
  | b :: rest, a, ha, e, he => by
    match hfb : f b with
    | .error e' => exact ⟨e', by simp only [mapCollect, hfb]; rfl⟩
    | .ok v =>
      rcases List.mem_cons.mp ha with rfl | ha'
      · rw [hfb] at he; exact absurd he (by simp)
      · obtain ⟨err, herr⟩ := mapCollect_isError f rest a ha' e he
        exact ⟨err, by simp only [mapCollect, hfb, herr]; rfl⟩

theorem enumerateFrom_map {α β : Type} (f : α → β) :
    ∀ (i : Nat) (l : List α),
      enumerateFrom i (l.map f) = (enumerateFrom i l).map (fun x => (x.1, f x.2))
  | _, [] => rfl
  | i, a :: rest => by
    simp only [List.map_cons, enumerateFrom, enumerateFrom_map f (i + 1) rest]

theorem mem_enumerateFrom {α : Type} :
    ∀ {i : Nat} {l : List α} {x : Nat × α}, x ∈ enumerateFrom i l → x.2 ∈ l
  | _, a :: rest, x, hx => by
    rcases List.mem_cons.mp hx with rfl | hx'
    · exact List.mem_cons_self a rest
    · exact List.mem_cons_of_mem a (mem_enumerateFrom hx')

/-- The triple grouping `TriangleMesh::triangles` is specified to produce:
consecutive point triples, each point projected through `get_coords`, in
original order. -/
def triplesOf : List Float4 → List (List (List Float))
  | a :: b :: c :: rest => [get_coords a, get_coords b, get_coords c] :: triplesOf rest
  | _ => []

theorem foldl_add_point :
    ∀ (l : List Float4) (res : List (List (List Float))) (tmp : List (List Float)),
      tmp.length = 3 → l.length % 3 = 0 →
      (l.foldl TriangleAccumulator.add_point ⟨res, 0, tmp⟩).result = res ++ triplesOf l
  | [], res, tmp, _, _ => by simp [List.foldl, triplesOf]
  | [a], _, _, _, hl => by simp at hl
  | [a, b], _, _, _, hl => by simp at hl
  | a :: b :: c :: rest, res, tmp, htmp, hl => by
    obtain ⟨t0, t1, t2, rfl⟩ := List.length_eq_three.mp htmp
    have hrest : rest.length % 3 = 0 := by
      simp only [List.length_cons] at hl
      omega
    have hstep :
        (a :: b :: c :: rest).foldl TriangleAccumulator.add_point
          ⟨res, 0, [t0, t1, t2]⟩ =
        rest.foldl TriangleAccumulator.add_point
          ⟨res ++ [[get_coords a, get_coords b, get_coords c]], 0,
            [get_coords a, get_coords b, get_coords c]⟩ := by
      simp [List.foldl, TriangleAccumulator.add_point, List.set]
    rw [hstep,
      foldl_add_point rest (res ++ [[get_coords a, get_coords b, get_coords c]])
        [get_coords a, get_coords b, get_coords c] rfl hrest,
      List.append_assoc]
    rfl

/-! ## Claim theorems -/

/-- Concrete GPU device used by witnesses. -/
def witDevice : OclDevice := ⟨.ok "Dev0", true⟩

/-- Concrete platform with one GPU device, used by witnesses. -/
def witPlatform : OclPlatform := ⟨.ok "Plat0", .ok [witDevice]⟩

/-- Concrete platform whose device enumeration fails, used by witnesses. -/
def witBadPlatform : OclPlatform := ⟨.ok "Plat1", .error ⟨some "-30", none, "enumeration failed"⟩⟩

/-- Concrete one-platform/one-device snapshot, used by witnesses. -/
def witManager : ContextManager := ⟨[⟨[witDevice], witPlatform⟩]⟩

/-- Native environment in which every native call succeeds. -/
def okNativeEnv : NativeEnv := ⟨.ok (), .ok ()⟩

/-- C1: source generation is a pure function and, on the names the code
actually registers (`add`, `sub`, `mul`, `div`), yields the fixed source with
the kernel name, its operator and two `float4` operands; but for `translate`
and `scale` — members of the claim's closed set, used by the repository's own
`context.rs` test and `mesh.rs` methods — it fails with `Unknown function`
instead of yielding a scalar-operand source. -/
theorem c1_kernel_source_generation :
    (get_source "add" = .ok (fn_inpl "add" "+=" "float4" "float4") ∧
      strContains (fn_inpl "add" "+=" "float4" "float4") "__kernel void add" ∧
      strContains (fn_inpl "add" "+=" "float4" "float4") "+=" ∧
      strContains (fn_inpl "add" "+=" "float4" "float4") "float4 *A" ∧
      strContains (fn_inpl "add" "+=" "float4" "float4") "float4 *B") ∧
    (get_source "sub" = .ok (fn_inpl "sub" "-=" "float4" "float4") ∧
      strContains (fn_inpl "sub" "-=" "float4" "float4") "-=") ∧
    (get_source "mul" = .ok (fn_inpl "mul" "*=" "float4" "float4") ∧
      strContains (fn_inpl "mul" "*=" "float4" "float4") "*=") ∧
    (get_source "div" = .ok (fn_inpl "div" "/=" "float4" "float4") ∧
      strContains (fn_inpl "div" "/=" "float4" "float4") "/=") ∧
    get_source "translate" = .error (ClgeomError.new "Unknown function: translate") ∧
    get_source "scale" = .error (ClgeomError.new "Unknown function: scale") :=
  ⟨⟨rfl, by decide, by decide, by decide, by decide⟩,
    ⟨rfl, by decide⟩, ⟨rfl, by decide⟩, ⟨rfl, by decide⟩, rfl, rfl⟩

/-- C2: `clgeom_create_context` writes 0 to the caller's error-code slot
unconditionally — also when the underlying `create_context` fails, in which
case the boxed handle holds an `Err`; so a failed creation is reported as
success, contradicting the function's own doc comment. -/
theorem c2_ffi_error_code :
    (∀ (mgr : ContextManager) (cdev : ClgeomDeviceInfo) (env : NativeEnv),
      (clgeom_create_context mgr cdev env).2 = 0) ∧
    (clgeom_create_context ⟨[]⟩ ⟨0, "", 0, ""⟩ okNativeEnv).1.context =
      .error (ClgeomError.new "Error getting platform 0") ∧
    (clgeom_create_context_manager [witBadPlatform]).2 = 999 :=
  ⟨fun _ _ _ => rfl, rfl, rfl⟩

/-- C7: any kernel name outside the closed six-name set is rejected by the
source registry with the error message `Unknown function: {name}`, and a
program build for it (with the native context build succeeding) fails with an
error whose message contains the literal name; there is no fallback. -/
theorem c7_unknown_kernel_name (name : String)
    (h : name ∉ (["add", "sub", "mul", "div", "translate", "scale"] : List String)) :
    get_source name = .error (ClgeomError.new ("Unknown function: " ++ name)) ∧
    ∀ (target : OclDevice) (env : CompileEnv), env.contextBuild = .ok () →
      ∃ err, get_program name target env = .error err ∧
        err.message = "Unknown function: " ++ name ∧
        strContains err.message name := by
  simp only [List.mem_cons, not_or] at h
  obtain ⟨h1, h2, h3, h4, h5, h6, -⟩ := h
  have hsrc : get_source name = .error (ClgeomError.new ("Unknown function: " ++ name)) := by
    unfold get_source
    split
    next => exact absurd rfl h1
    next => exact absurd rfl h2
    next => exact absurd rfl h3
    next => exact absurd rfl h4
    next => rfl
  refine ⟨hsrc, fun target env hcb => ?_⟩
  refine ⟨ClgeomError.new ("Unknown function: " ++ name), ?_, rfl, ?_⟩
  · simp only [get_program, hcb, hsrc]
    rfl
  · exact strContains_append_left "Unknown function: " (strContains_refl name)

/-- Witness for C7 at the concrete unknown name `"foo"`. -/
theorem c7_unknown_kernel_name_witness :
    get_source "foo" = .error (ClgeomError.new "Unknown function: foo") ∧
    ∃ err, get_program "foo" witDevice ⟨.ok (), .ok ()⟩ = .error err ∧
      err.message = "Unknown function: foo" ∧ strContains err.message "foo" :=
  ⟨(c7_unknown_kernel_name "foo" (by decide)).1,
    (c7_unknown_kernel_name "foo" (by decide)).2 witDevice ⟨.ok (), .ok ()⟩ rfl⟩

/-- C3 counterexample: with zero platforms reported by the underlying API,
`ContextManager::new` returns `Ok` with an empty snapshot, not an error. -/
theorem c3_zero_platforms_counterexample :
    ContextManager.new [] = .ok ⟨[]⟩ := rfl

/-- C3 (amended): `ContextManager::new` performs one enumeration pass over
the reported platforms, stores the per-platform device listings as the
snapshot, and returns an error when any platform's device enumeration errors;
with zero platforms it returns an `Ok` manager holding an empty snapshot. -/
theorem c3_context_manager_new (ps : List OclPlatform)
    (devsOf : OclPlatform → List OclDevice) :
    ((∀ p ∈ ps, p.devListResult = .ok (devsOf p)) →
      ContextManager.new ps =
        .ok ⟨ps.map (fun p => ⟨(devsOf p).filter (·.isGpu), p⟩)⟩) ∧
    (∀ p ∈ ps, ∀ e, p.devListResult = .error e →
      ∃ err, ContextManager.new ps = .error err) ∧
    ContextManager.new [] = .ok ⟨[]⟩ := by
  refine ⟨fun h => ?_, fun p hp e he => ?_, rfl⟩
  · have hok : ∀ p ∈ ps, unwrap_devices p =
        .ok ⟨(devsOf p).filter (·.isGpu), p⟩ := by
      intro p hp
      simp [unwrap_devices, listGpuDevices, h p hp, rewrap_ocl_result,
        except_bind_ok]
    simp only [ContextManager.new,
      mapCollect_ok unwrap_devices (fun p => ⟨(devsOf p).filter (·.isGpu), p⟩) ps hok,
      except_bind_ok]
  · have herr : unwrap_devices p = .error (e.to_clgeom_error "listing devices") := by
      simp [unwrap_devices, listGpuDevices, he, rewrap_ocl_result,
        except_bind_error]
    obtain ⟨err, herr'⟩ := mapCollect_isError unwrap_devices ps p hp _ herr
    exact ⟨err, by simp only [ContextManager.new, herr', except_bind_error]⟩

/-- Witness for C3's amended theorem: one healthy platform yields its
snapshot; one platform whose enumeration fails makes `new` fail. -/
theorem c3_context_manager_new_witness :
    ContextManager.new [witPlatform] = .ok ⟨[⟨[witDevice], witPlatform⟩]⟩ ∧
    ∃ err, ContextManager.new [witBadPlatform] = .error err := by
  constructor
  · exact (c3_context_manager_new [witPlatform] (fun _ => [witDevice])).1
      (by intro p hp; rw [List.mem_singleton] at hp; subst hp; rfl)
  · exact (c3_context_manager_new [witBadPlatform] (fun _ => [])).2.1 witBadPlatform
      (List.mem_singleton.mpr rfl) ⟨some "-30", none, "enumeration failed"⟩ rfl

/-- C4 counterexample: for an out-of-range platform index the error message is
`Error getting platform {i}` — it does not contain the text
`index out of range` and does not name the bound (0 platforms). -/
theorem c4_out_of_range_message_counterexample :
    ContextManager.create_context ⟨[]⟩ ⟨0, "", 1, ""⟩ okNativeEnv =
      .error (ClgeomError.new "Error getting platform 1") ∧
    ¬ strContains "Error getting platform 1" "index out of range" ∧
    ¬ strContains "Error getting platform 1" "0" :=
  ⟨rfl, by decide, by decide⟩

/-- C4 (amended): `create_context` validates both indices against the
snapshot and never crashes: an out-of-range platform index produces the error
`Error getting platform {platform_id}`, an out-of-range device index produces
`getting device {device_id} for platform {platform_id}` (the offending
indices are named, the bounds are not); for in-range indices, when the native
calls succeed, it constructs exactly one context on that platform holding
that single device, and one queue bound to that context and device. -/
theorem c4_create_context (mgr : ContextManager) (dev : DeviceInfo)
    (env : NativeEnv) :
    (mgr.ocl_platforms.length ≤ dev.platform_id →
      mgr.create_context dev env = .error
        (ClgeomError.new ("Error getting platform " ++ toString dev.platform_id))) ∧
    (∀ pd, mgr.ocl_platforms[dev.platform_id]? = some pd →
      pd.devices.length ≤ dev.device_id →
      mgr.create_context dev env = .error
        (ClgeomError.new ("getting device " ++ toString dev.device_id ++
          " for platform " ++ toString dev.platform_id))) ∧
    (∀ pd d, mgr.ocl_platforms[dev.platform_id]? = some pd →
      pd.devices[dev.device_id]? = some d →
      env.contextBuild = .ok () → env.queueNew = .ok () →
      mgr.create_context dev env =
        .ok ⟨⟨some pd.platform, [d]⟩, ⟨⟨some pd.platform, [d]⟩, d⟩⟩) := by
  refine ⟨fun h => ?_, fun pd hpd h => ?_, fun pd d hpd hd hcb hq => ?_⟩
  · have : mgr.ocl_platforms[dev.platform_id]? = none := List.getElem?_eq_none h
    simp only [ContextManager.create_context, this, okOrElse, except_bind_error]
  · have : pd.devices[dev.device_id]? = none := List.getElem?_eq_none h
    simp only [ContextManager.create_context, hpd, this, okOrElse,
      except_bind_ok, except_bind_error]
  · simp only [ContextManager.create_context, hpd, hd, hcb, hq, okOrElse,
      rewrap_ocl_result, except_bind_ok]

/-- Witness for C4's amended theorem on a one-platform/one-device snapshot:
platform index 5 and device index 7 produce the two named errors, and the
in-range descriptor produces the single context/queue pair. -/
theorem c4_create_context_witness :
    witManager.create_context ⟨0, "", 5, ""⟩ okNativeEnv =
      .error (ClgeomError.new "Error getting platform 5") ∧
    witManager.create_context ⟨7, "", 0, ""⟩ okNativeEnv =
      .error (ClgeomError.new "getting device 7 for platform 0") ∧
    witManager.create_context ⟨0, "", 0, ""⟩ okNativeEnv =
      .ok ⟨⟨some witPlatform, [witDevice]⟩,
        ⟨⟨some witPlatform, [witDevice]⟩, witDevice⟩⟩ :=
  ⟨(c4_create_context witManager ⟨0, "", 5, ""⟩ okNativeEnv).1 (by decide),
    (c4_create_context witManager ⟨7, "", 0, ""⟩ okNativeEnv).2.1
      ⟨[witDevice], witPlatform⟩ rfl (by decide),
    (c4_create_context witManager ⟨0, "", 0, ""⟩ okNativeEnv).2.2
      ⟨[witDevice], witPlatform⟩ witDevice rfl rfl rfl rfl⟩

/-- Any `ComputeContext` produced by `ContextManager::create_context` carries
the snapshot platform in its native context. -/
theorem create_context_platform_isSome (mgr : ContextManager) (dev : DeviceInfo)
    (env : NativeEnv) (cc : ComputeContext)
    (hcc : mgr.create_context dev env = .ok cc) : cc.context.platform.isSome := by
  unfold ContextManager.create_context at hcc
  cases hp : mgr.ocl_platforms[dev.platform_id]? with
  | none => rw [hp] at hcc; simp [okOrElse, except_bind_error] at hcc
  | some pd =>
    rw [hp] at hcc
    simp only [okOrElse, except_bind_ok] at hcc
    cases hd : pd.devices[dev.device_id]? with
    | none => rw [hd] at hcc; simp [okOrElse, except_bind_error] at hcc
    | some d =>
      rw [hd] at hcc
      simp only [okOrElse, except_bind_ok] at hcc
      cases hcb : env.contextBuild with
      | error e =>
        rw [hcb] at hcc
        simp [rewrap_ocl_result, except_bind_error] at hcc
      | ok u =>
        rw [hcb] at hcc
        simp only [rewrap_ocl_result, except_bind_ok] at hcc
        cases hq : env.queueNew with
        | error e =>
          rw [hq] at hcc
          simp [rewrap_ocl_result, except_bind_error] at hcc
        | ok u' =>
          rw [hq] at hcc
          simp only [rewrap_ocl_result, except_bind_ok, Except.ok.injEq] at hcc
          rw [← hcc]
          rfl

/-- C5: `get_program` does not compile within the caller's context — it takes
no context at all and builds a fresh one via
`ContextBuilder::new().devices(target)` (platform-less), so the compile
context always differs from the context of any session produced by
`ContextManager::create_context` (whose builder is given the snapshot
platform); its own call site at src/context.rs:78 passes
`(name, &self.context, device)`, which does not even match the two-parameter
signature. -/
theorem c5_get_program_fresh_context (mgr : ContextManager) (dev : DeviceInfo)
    (env : NativeEnv) (cc : ComputeContext)
    (hcc : mgr.create_context dev env = .ok cc)
    (function src : String) (hsrc : get_source function = .ok src)
    (target : OclDevice) :
    get_program function target ⟨.ok (), .ok ()⟩ =
      .ok ⟨src, [target], ⟨none, [target]⟩⟩ ∧
    (⟨none, [target]⟩ : Context) ≠ cc.context := by
  constructor
  · simp only [get_program, rewrap_ocl_result, hsrc, except_bind_ok]
  · intro hEq
    have h1 := create_context_platform_isSome mgr dev env cc hcc
    rw [← hEq] at h1
    simp at h1

/-- Witness for C5 at a concrete session and the `add` kernel. -/
theorem c5_get_program_fresh_context_witness :
    get_program "add" witDevice ⟨.ok (), .ok ()⟩ =
      .ok ⟨fn_inpl "add" "+=" "float4" "float4", [witDevice],
        ⟨none, [witDevice]⟩⟩ ∧
    (⟨none, [witDevice]⟩ : Context) ≠
      (⟨⟨some witPlatform, [witDevice]⟩,
        ⟨⟨some witPlatform, [witDevice]⟩, witDevice⟩⟩ : ComputeContext).context :=
  c5_get_program_fresh_context witManager ⟨0, "", 0, ""⟩ okNativeEnv
    ⟨⟨some witPlatform, [witDevice]⟩, ⟨⟨some witPlatform, [witDevice]⟩, witDevice⟩⟩
    rfl "add" (fn_inpl "add" "+=" "float4" "float4") rfl witDevice

/-- C6: whenever the native program build fails (with the source having
resolved and the fresh context built), `get_program` returns exactly the
rewrapped native error: its message carries the operation label
`building OpenCL program`, the native status rendering (or the literal
`[NONE]` marker when the native API provides no status), and the full native
diagnostic text verbatim as a contiguous substring. -/
theorem c6_compile_diagnostics (function src : String)
    (hsrc : get_source function = .ok src) (target : OclDevice)
    (env : CompileEnv) (e : OclError)
    (hcb : env.contextBuild = .ok ()) (hpb : env.programBuild = .error e) :
    get_program function target env =
      .error (e.to_clgeom_error "building OpenCL program") ∧
    strContains (e.to_clgeom_error "building OpenCL program").message
      "building OpenCL program" ∧
    (∀ st, e.apiStatus = some st →
      strContains (e.to_clgeom_error "building OpenCL program").message st) ∧
    (e.apiStatus = none →
      strContains (e.to_clgeom_error "building OpenCL program").message "[NONE]") ∧
    strContains (e.to_clgeom_error "building OpenCL program").message
      e.displayMsg := by
  refine ⟨?_, ?_, ?_, ?_, ?_⟩
  · simp only [get_program, rewrap_ocl_result, hcb, hsrc, hpb, except_bind_ok,
      except_bind_error]
  · exact strContains_append_right _ (strContains_append_right _
      (strContains_append_right _ (strContains_append_right _
        (strContains_append_right _ (strContains_append_right _
          (strContains_append_right _ (strContains_append_left _
            (strContains_refl "building OpenCL program"))))))))
  · intro st hst
    simp only [OclError.to_clgeom_error, hst, ClgeomError.message]
    exact strContains_append_right _ (strContains_append_right _
      (strContains_append_right _ (strContains_append_right _
        (strContains_append_right _ (strContains_append_left _
          (strContains_refl st))))))
  · intro hst
    simp only [OclError.to_clgeom_error, hst, ClgeomError.message]
    exact strContains_append_right _ (strContains_append_right _
      (strContains_append_right _ (strContains_append_right _
        (strContains_append_right _ (strContains_append_left _
          (strContains_refl "[NONE]"))))))
  · simp only [OclError.to_clgeom_error, ClgeomError.message]
    exact strContains_append_right _ (strContains_append_left _
      (strContains_refl e.displayMsg))

/-- Witness for C6: a concrete status-less native build failure carrying a
multi-line diagnostic. -/
theorem c6_compile_diagnostics_witness :
    get_program "add" witDevice
        ⟨.ok (), .error ⟨none, none, "<kernel>:3:1: error: unknown type name"⟩⟩ =
      .error ((⟨none, none, "<kernel>:3:1: error: unknown type name"⟩ :
        OclError).to_clgeom_error "building OpenCL program") ∧
    strContains ((⟨none, none, "<kernel>:3:1: error: unknown type name"⟩ :
      OclError).to_clgeom_error "building OpenCL program").message
      "building OpenCL program" ∧
    strContains ((⟨none, none, "<kernel>:3:1: error: unknown type name"⟩ :
      OclError).to_clgeom_error "building OpenCL program").message "[NONE]" ∧
    strContains ((⟨none, none, "<kernel>:3:1: error: unknown type name"⟩ :
      OclError).to_clgeom_error "building OpenCL program").message
      "<kernel>:3:1: error: unknown type name" := by
  have h := c6_compile_diagnostics "add" (fn_inpl "add" "+=" "float4" "float4")
    rfl witDevice ⟨.ok (), .error ⟨none, none, "<kernel>:3:1: error: unknown type name"⟩⟩
    ⟨none, none, "<kernel>:3:1: error: unknown type name"⟩ rfl rfl
  exact ⟨h.1, h.2.1, h.2.2.2.1 rfl, h.2.2.2.2⟩

/-- A device on which every native name query succeeds (name, GPU flag). -/
def mkOclDevice (d : String × Bool) : OclDevice := ⟨.ok d.1, d.2⟩

/-- A platform on which every native query succeeds: a name and a raw device
list given as (name, GPU flag) pairs. -/
def mkOclPlatform (r : String × List (String × Bool)) : OclPlatform :=
  ⟨.ok r.1, .ok (r.2.map mkOclDevice)⟩

/-- The platform name a successful name query reports. -/
def pnameOf (p : OclPlatform) : String :=
  match p.pname with
  | .ok s => s
  | .error _ => ""

/-- The device name a successful name query reports. -/
def dnameOf (d : OclDevice) : String :=
  match d.dname with
  | .ok s => s
  | .error _ => ""

/-- The GPU-filtered devices of a platform whose enumeration succeeds. -/
def gpuDevicesOf (p : OclPlatform) : List OclDevice :=
  (match p.devListResult with
    | .ok ds => ds
    | .error _ => []).filter (·.isGpu)

/-- C8: for any platform list reported by the underlying API (with the native
name queries succeeding), `ContextManager::new` retains one snapshot entry
per platform — platforms contributing zero GPU devices stay as empty
entries — and `list_devices` returns exactly one `DeviceInfo` per
GPU-filtered device, whose `platform_id`/`device_id` are the positions of the
platform in the snapshot and of the device within that platform. -/
theorem c8_enumeration_positions (raw : List (String × List (String × Bool))) :
    ContextManager.new (raw.map mkOclPlatform) =
      .ok ⟨(raw.map mkOclPlatform).map (fun p => ⟨gpuDevicesOf p, p⟩)⟩ ∧
    ContextManager.list_devices
        ⟨(raw.map mkOclPlatform).map (fun p => ⟨gpuDevicesOf p, p⟩)⟩ =
      .ok ((enumerate (raw.map mkOclPlatform)).map (fun x =>
        (enumerate (gpuDevicesOf x.2)).map (fun y =>
          DeviceInfo.mk y.1 (dnameOf y.2) x.1 (pnameOf x.2)))).flatten := by
  constructor
  · have hnew : ∀ p ∈ raw.map mkOclPlatform,
        unwrap_devices p = .ok ⟨gpuDevicesOf p, p⟩ := by
      intro p hp
      obtain ⟨r, -, rfl⟩ := List.mem_map.mp hp
      rfl
    simp only [ContextManager.new,
      mapCollect_ok unwrap_devices (fun p => ⟨gpuDevicesOf p, p⟩)
        (raw.map mkOclPlatform) hnew, except_bind_ok]
  · have hinner : ∀ x ∈ enumerate
        ((raw.map mkOclPlatform).map (fun p => (⟨gpuDevicesOf p, p⟩ : PlatformDevices))),
        create_device_infos x.1 x.2 =
          .ok ((enumerate (gpuDevicesOf x.2.platform)).map (fun y =>
            DeviceInfo.mk y.1 (dnameOf y.2) x.1 (pnameOf x.2.platform))) := by
      intro x hx
      obtain ⟨i, pd⟩ := x
      have hpd : pd ∈ (raw.map mkOclPlatform).map
          (fun p => (⟨gpuDevicesOf p, p⟩ : PlatformDevices)) := mem_enumerateFrom hx
      obtain ⟨p, hp, rfl⟩ := List.mem_map.mp hpd
      obtain ⟨r, -, rfl⟩ := List.mem_map.mp hp
      have hdev : ∀ y ∈ enumerate (gpuDevicesOf (mkOclPlatform r)),
          create_device_info i r.1 y.1 y.2 =
            .ok ⟨y.1, dnameOf y.2, i, r.1⟩ := by
        intro y hy
        obtain ⟨j, d⟩ := y
        have hd : d ∈ gpuDevicesOf (mkOclPlatform r) := mem_enumerateFrom hy
        have hd' : d ∈ r.2.map mkOclDevice := List.mem_of_mem_filter hd
        obtain ⟨d', -, rfl⟩ := List.mem_map.mp hd'
        rfl
      exact mapCollect_ok
        (fun d : Nat × OclDevice => create_device_info i r.1 d.1 d.2)
        (fun y : Nat × OclDevice => ⟨y.1, dnameOf y.2, i, r.1⟩) _ hdev
    have hmain := mapCollect_ok
      (fun x : Nat × PlatformDevices => create_device_infos x.1 x.2)
      (fun x : Nat × PlatformDevices =>
        (enumerate (gpuDevicesOf x.2.platform)).map (fun y =>
          DeviceInfo.mk y.1 (dnameOf y.2) x.1 (pnameOf x.2.platform)))
      _ hinner
    have h2 : ContextManager.list_devices
        ⟨(raw.map mkOclPlatform).map (fun p => ⟨gpuDevicesOf p, p⟩)⟩ =
      .ok ((enumerate ((raw.map mkOclPlatform).map
          (fun p => (⟨gpuDevicesOf p, p⟩ : PlatformDevices)))).map
        (fun x => (enumerate (gpuDevicesOf x.2.platform)).map (fun y =>
          DeviceInfo.mk y.1 (dnameOf y.2) x.1 (pnameOf x.2.platform)))).flatten := by
      simp only [ContextManager.list_devices, hmain, except_bind_ok]
    rw [h2]
    unfold enumerate
    rw [enumerateFrom_map (fun p => (⟨gpuDevicesOf p, p⟩ : PlatformDevices)) 0
      (raw.map mkOclPlatform), List.map_map]
    rfl

theorem triangles_not_multiple (data : List Float4) (h : data.length % 3 ≠ 0) :
    triangles (.ok ()) data =
      .error (ClgeomError.new "Buffer length is not a multiple of 3.") := by
  simp only [triangles, read_buffer, rewrap_ocl_result, except_bind_ok]
  rw [if_pos h]

theorem triangles_multiple (data : List Float4) (h : data.length % 3 = 0) :
    triangles (.ok ()) data = .ok (triplesOf data) := by
  simp only [triangles, read_buffer, rewrap_ocl_result, except_bind_ok]
  rw [if_neg (not_not_intro h)]
  simp only [TriangleAccumulator.new]
  rw [foldl_add_point data [] _ (by simp) h, List.nil_append]

theorem mem_triplesOf :
    ∀ (l : List Float4) (t : List (List Float)), t ∈ triplesOf l →
      ∀ c ∈ t, ∃ p ∈ l, c = get_coords p
  | [], t, ht, _, _ => by simp [triplesOf] at ht
  | [a], t, ht, _, _ => by simp [triplesOf] at ht
  | [a, b], t, ht, _, _ => by simp [triplesOf] at ht
  | a :: b :: b' :: rest, t, ht, c, hc => by
    rw [triplesOf] at ht
    rcases List.mem_cons.mp ht with rfl | ht'
    · rcases List.mem_cons.mp hc with rfl | hc'
      · exact ⟨a, List.mem_cons_self _ _, rfl⟩
      rcases List.mem_cons.mp hc' with rfl | hc''
      · exact ⟨b, List.mem_cons_of_mem _ (List.mem_cons_self _ _), rfl⟩
      rcases List.mem_cons.mp hc'' with rfl | hc'''
      · exact ⟨b', List.mem_cons_of_mem _ (List.mem_cons_of_mem _
          (List.mem_cons_self _ _)), rfl⟩
      · exact absurd hc''' (List.not_mem_nil c)
    · obtain ⟨p, hp, rfl⟩ := mem_triplesOf rest t ht' c hc
      exact ⟨p, List.mem_cons_of_mem _ (List.mem_cons_of_mem _
        (List.mem_cons_of_mem _ hp)), rfl⟩

/-- C9: reading a mesh back as triangles fails with the explicit
`not a multiple of 3` error when the buffer length is not a multiple of 3,
and otherwise groups the points into consecutive ordered triples preserving
the original point order. -/
theorem c9_triangle_reshape (data : List Float4) :
    (data.length % 3 ≠ 0 →
      triangles (.ok ()) data =
        .error (ClgeomError.new "Buffer length is not a multiple of 3.") ∧
      strContains "Buffer length is not a multiple of 3." "not a multiple of 3") ∧
    (data.length % 3 = 0 →
      triangles (.ok ()) data = .ok (triplesOf data)) :=
  ⟨fun h => ⟨triangles_not_multiple data h, by decide⟩,
    fun h => triangles_multiple data h⟩

/-- Witness for C9: three points produce one ordered triple; two points fail
with the multiple-of-3 error. -/
theorem c9_triangle_reshape_witness :
    triangles (.ok ())
        [⟨1.0, 2.0, 3.0, 0.0⟩, ⟨4.0, 5.0, 6.0, 0.0⟩, ⟨7.0, 8.0, 9.0, 0.0⟩] =
      .ok [[[1.0, 2.0, 3.0], [4.0, 5.0, 6.0], [7.0, 8.0, 9.0]]] ∧
    triangles (.ok ()) [⟨1.0, 2.0, 3.0, 0.0⟩, ⟨4.0, 5.0, 6.0, 0.0⟩] =
      .error (ClgeomError.new "Buffer length is not a multiple of 3.") :=
  ⟨(c9_triangle_reshape
      [⟨1.0, 2.0, 3.0, 0.0⟩, ⟨4.0, 5.0, 6.0, 0.0⟩, ⟨7.0, 8.0, 9.0, 0.0⟩]).2
      (by decide),
    ((c9_triangle_reshape [⟨1.0, 2.0, 3.0, 0.0⟩, ⟨4.0, 5.0, 6.0, 0.0⟩]).1
      (by decide)).1⟩

/-- C10: `get_coords` yields exactly the first three components of a point
(the fourth never influences the result), the embedded per-component match
substitutes `0.0` when a component is not yielded, component access past the
four components yields nothing, and every coordinate triple `triangles`
returns is the first-three-component projection of some buffer point. -/
theorem c10_first_three_components (v : Float4) (w : Float) :
    get_coords v = [v.s0, v.s1, v.s2] ∧
    get_coords ⟨v.s0, v.s1, v.s2, w⟩ = get_coords v ∧
    coord_or_zero none = 0.0 ∧
    (∀ x : Float, coord_or_zero (some x) = x) ∧
    (∀ j, 4 ≤ j → v.get j = none) ∧
    (∀ (data : List Float4) (res : List (List (List Float))),
      triangles (.ok ()) data = .ok res →
      ∀ t ∈ res, ∀ c ∈ t, ∃ p ∈ data, c = [p.s0, p.s1, p.s2]) := by
  refine ⟨rfl, rfl, rfl, fun _ => rfl, ?_, ?_⟩
  · intro j hj
    match j, hj with
    | j + 4, _ => rfl
  · intro data res hres t ht c hc
    by_cases hmod : data.length % 3 = 0
    · rw [triangles_multiple data hmod] at hres
      obtain rfl : triplesOf data = res := Except.ok.inj hres
      obtain ⟨p, hp, rfl⟩ := mem_triplesOf data t ht c hc
      exact ⟨p, hp, rfl⟩
    · rw [triangles_not_multiple data hmod] at hres
      exact absurd hres (by simp)

/-- Witness for C10: with a fourth component of 42 the projection still
returns the first three, and a concrete triple entry is traced back to its
buffer point. -/
theorem c10_first_three_components_witness :
    get_coords ⟨1.0, 2.0, 3.0, 42.0⟩ = [1.0, 2.0, 3.0] ∧
    ∃ p ∈ [(⟨1.0, 2.0, 3.0, 42.0⟩ : Float4), ⟨4.0, 5.0, 6.0, 43.0⟩,
        ⟨7.0, 8.0, 9.0, 44.0⟩],
      [4.0, 5.0, 6.0] = [p.s0, p.s1, p.s2] :=
  ⟨(c10_first_three_components ⟨1.0, 2.0, 3.0, 42.0⟩ 0.0).1,
    (c10_first_three_components ⟨1.0, 2.0, 3.0, 42.0⟩ 0.0).2.2.2.2.2
      [⟨1.0, 2.0, 3.0, 42.0⟩, ⟨4.0, 5.0, 6.0, 43.0⟩, ⟨7.0, 8.0, 9.0, 44.0⟩]
      [[[1.0, 2.0, 3.0], [4.0, 5.0, 6.0], [7.0, 8.0, 9.0]]] rfl
      [[1.0, 2.0, 3.0], [4.0, 5.0, 6.0], [7.0, 8.0, 9.0]]
      (List.mem_cons_self _ _)
      [4.0, 5.0, 6.0]
      (List.mem_cons_of_mem _ (List.mem_cons_self _ _))⟩

end Clgeom
